import Mathlib

/-!
Verification of the network-construction and reconciliation logic of
`pysar/plot_network.py` (function `read_network_info`).

The embedding is shallow and executable:

* Python strings (acquisition dates and `date12` pair keys) are Lean `String`s;
  `str.split('_')` and lexicographic `sorted` are re-implemented on the
  character list (`pySplit`, `pyStrLe`) so every definition evaluates by
  kernel reduction.
* A coherence value (a Python float that is only ever stored, moved and
  tested with `np.isnan`) is `CohVal`: either the not-a-number sentinel
  `CohVal.nan` or a rational payload `CohVal.val q`.  No arithmetic is
  performed on coherence values anywhere in the source, so this is faithful.
* Perpendicular-baseline values are rationals; the source only carries them
  through, never computes with them.
* Python exceptions (`ValueError`, `TypeError`, `IndexError`) are modelled
  with `Except String`; `None` is `Option.none`; an argparse-namespace
  attribute that a code path never assigns is an `Option` field left `none`.
* The results of the external accessors (`ifgramStack.get_date_list`,
  `get_perp_baseline_timeseries`, `get_date12_list`, `timeseries.open`,
  `pnet.read_baseline_file`, `pnet.get_date12_list`, `ut.spatial_average`)
  are the fields of the input record `NetworkInput`; `read_network_info`
  itself only combines them, which is exactly the logic embedded here.
* `set(a) - set(b)` followed by `sorted(list(...))` is `pySortedSetDiff`:
  deduplicated filtering followed by an insertion sort under the
  lexicographic order, which is Python's string order by code point.
-/

/-- A per-pair average coherence value: the not-a-number sentinel produced by
`ut.spatial_average`, or a real scalar. -/
inductive CohVal where
  | nan
  | val (q : ℚ)
deriving DecidableEq, Repr

/-- `np.isnan` on a single coherence value. -/
def CohVal.isNaN : CohVal → Bool
  | CohVal.nan => true
  | CohVal.val _ => false

/-- Accumulator-based splitting of a character list at a separator character,
with Python semantics: `"a__b".split('_') == ['a', '', 'b']` and
`"".split('_') == ['']`. -/
def pySplitAux (sep : Char) : List Char → List Char → List (List Char)
  | [], acc => [acc.reverse]
  | c :: cs, acc =>
    if c = sep then acc.reverse :: pySplitAux sep cs []
    else pySplitAux sep cs (c :: acc)

/-- Python `s.split(sep)` for a one-character separator. -/
def pySplit (s : String) (sep : Char) : List String :=
  (pySplitAux sep s.toList []).map (fun cs => String.mk cs)

/-- Strict lexicographic comparison of character lists by code point. -/
def strLtAux : List Char → List Char → Bool
  | [], [] => false
  | [], _ :: _ => true
  | _ :: _, [] => false
  | a :: as, b :: bs =>
    if a.toNat < b.toNat then true
    else if b.toNat < a.toNat then false
    else strLtAux as bs

/-- Python `s <= t` on strings (lexicographic by code point), the order used
by `sorted` on lists of date / date12 strings. -/
def pyStrLe (s t : String) : Bool := !(strLtAux t.toList s.toList)

/-- Python `sorted(list(set(l)))`: the distinct elements of `l` in ascending
lexicographic order. -/
def pySortedSet (l : List String) : List String :=
  List.insertionSort (fun a b => pyStrLe a b = true) l.dedup

/-- Python `sorted(list(set(a) - set(b)))`: the distinct elements of `a` that
are not in `b`, in ascending lexicographic order. -/
def pySortedSetDiff (a b : List String) : List String :=
  pySortedSet (a.filter (fun x => decide (x ∉ b)))

/-- Python `set(a) > set(b)`: the element set of `a` is a strict superset of
the element set of `b`. -/
def setStrictSuperset (a b : List String) : Bool :=
  b.all (fun x => decide (x ∈ a)) && a.any (fun x => decide (x ∉ b))

/-- First index of `x` in a list, `none` if absent (Python `list.index`
before its `ValueError` is raised). -/
def pyIndexAux (x : String) : List String → Option Nat
  | [] => none
  | y :: ys => if y = x then some 0 else (pyIndexAux x ys).map (· + 1)

/-- Python `l.index(x)`: first index of `x`, or a `ValueError`. -/
def pyIndex (l : List String) (x : String) : Except String Nat :=
  match pyIndexAux x l with
  | some i => Except.ok i
  | none => Except.error "ValueError: x not in list"

/-- Python `l[i]` on a list of coherence values: the element, or an
`IndexError` when out of range. -/
def pyGet (l : List CohVal) (i : Nat) : Except String CohVal :=
  match l[i]? with
  | some v => Except.ok v
  | none => Except.error "IndexError: list index out of range"

/-- A Python list comprehension whose body may raise: evaluates the body left
to right and propagates the first exception. -/
def exceptMap {α β : Type} (f : α → Except String β) : List α → Except String (List β)
  | [] => Except.ok []
  | x :: xs => do
    let y ← f x
    let ys ← exceptMap f xs
    Except.ok (y :: ys)

/-- `i.split('_')[0]` for a date12 pair key: the master date component.
`split` never returns an empty list, so index 0 cannot fail. -/
def mdate (s : String) : String := ((pySplit s '_')[0]?).getD ""

/-- `i.split('_')[1]` for a date12 pair key: the secondary date component, or
an `IndexError` when the key contains no separator. -/
def sdateE (s : String) : Except String String :=
  match (pySplit s '_')[1]? with
  | some t => Except.ok t
  | none => Except.error "IndexError: list index out of range"

/-- Total variant of `sdateE`, agreeing with it whenever it succeeds. -/
def sdateD (s : String) : String := ((pySplit s '_')[1]?).getD ""

/-- The results of all external accessor calls made by `read_network_info`,
plus the source-shape discriminators it branches on:
`isH5` is `ext in ['.h5', '.he5']` and `fileType` is the `FILE_TYPE`
attribute (read only when `isH5`). -/
structure NetworkInput where
  isH5 : Bool
  fileType : String
  stackDateList : List String
  stackPbaseList : List ℚ
  tsDateList : List String
  tsPbaseList : List ℚ
  blDateList : List String
  blPbaseList : List ℚ
  date12List : List String
  date12ListKeep : List String
  cohList : List CohVal
  cohDate12List : List String
deriving Repr

/-- The drop/keep fields that `read_network_info` stores on `inps`.  The
`_keep` attributes are only assigned on the ifgramStack path, hence the
`Option`. -/
structure DropState where
  date12List_keep : Option (List String)
  date12List_drop : List String
  dateList_keep : Option (List String)
  dateList_drop : List String
deriving DecidableEq, Repr

/-- The fields of `inps` that `read_network_info` produces. -/
structure NetworkModel where
  dateList : List String
  pbaseList : List ℚ
  date12List : List String
  date12List_keep : Option (List String)
  date12List_drop : List String
  dateList_keep : Option (List String)
  dateList_drop : List String
  cohList : Option (List CohVal)
deriving Repr

/-- The `ValueError` message of `read_network_info` step 1. -/
def unsupportedKindMsg : String :=
  "ValueError: input file is not ifgramStack/timeseries, can not read temporal/spatial baseline info."

/-- The `TypeError` raised by subscripting `None`. -/
def noneTypeMsg : String :=
  "TypeError: NoneType object is not subscriptable"

/-- Step 1 of `read_network_info` (lines 164-179): select the date list and
perpendicular-baseline list according to the source shape, raising a
`ValueError` for a structured file of unrecognized kind. -/
def loadDatesAndBaselines (src : NetworkInput) : Except String (List String × List ℚ) :=
  if src.isH5 then
    if src.fileType = "ifgramStack" then
      Except.ok (src.stackDateList, src.stackPbaseList)
    else if src.fileType = "timeseries" then
      Except.ok (src.tsDateList, src.tsPbaseList)
    else
      Except.error unsupportedKindMsg
  else
    Except.ok (src.blDateList, src.blPbaseList)

/-- Whether the drop-state and coherence stages run:
`ext in ['.h5', '.he5'] and k == 'ifgramStack'`. -/
def NetworkInput.isStack (src : NetworkInput) : Bool :=
  src.isH5 && decide (src.fileType = "ifgramStack")

/-- Drop-state stage of `read_network_info` (lines 192-208).  On the
ifgramStack path: `date12List_drop = sorted(set(date12List) - set(keep))`,
`dateList_keep = sorted(set(mDates + sDates))` from splitting each kept key
on `'_'`, `dateList_drop = sorted(set(dateList) - set(dateList_keep))`.
Otherwise the drop lists stay at their `[]` initialization and no `_keep`
attribute is assigned. -/
def resolveDropState (isStack : Bool) (dateList date12List date12ListKeep : List String) :
    Except String DropState :=
  if isStack then do
    let date12ListDrop := pySortedSetDiff date12List date12ListKeep
    let mDates := date12ListKeep.map mdate
    let sDates ← exceptMap sdateE date12ListKeep
    let dateListKeep := pySortedSet (mDates ++ sDates)
    let dateListDrop := pySortedSetDiff dateList dateListKeep
    Except.ok ⟨some date12ListKeep, date12ListDrop, some dateListKeep, dateListDrop⟩
  else
    Except.ok ⟨none, [], none, []⟩

/-- Coherence reconciliation of `read_network_info` (lines 211-226), for the
ifgramStack path.  `cohList`/`cohDate12List` are the two results of
`ut.spatial_average`.  Mirrors the source exactly: the all-NaN test first
replaces the list by `None`; then the strict-superset branch re-indexes by
subscripting the current value (raising a `TypeError` when it is `None`);
the strict-subset branch discards; any other relation leaves the current
value unchanged. -/
def resolveCoherence (date12List cohDate12List : List String) (cohList : List CohVal) :
    Except String (Option (List CohVal)) :=
  let cohCur : Option (List CohVal) :=
    if cohList.all CohVal.isNaN then none else some cohList
  if setStrictSuperset cohDate12List date12List then do
    let newVals ← exceptMap (fun i => do
        let idx ← pyIndex cohDate12List i
        match cohCur with
        | none => Except.error noneTypeMsg
        | some vals => pyGet vals idx) date12List
    Except.ok (some newVals)
  else if setStrictSuperset date12List cohDate12List then
    Except.ok none
  else
    Except.ok cohCur

/-- The whole of `read_network_info`: step 1, then the drop-state stage, then
coherence reconciliation, assembled into the fields stored on `inps`. -/
def read_network_info (src : NetworkInput) : Except String NetworkModel := do
  let db ← loadDatesAndBaselines src
  let ds ← resolveDropState src.isStack db.1 src.date12List src.date12ListKeep
  let coh ←
    if src.isStack then resolveCoherence src.date12List src.cohDate12List src.cohList
    else Except.ok none
  Except.ok ⟨db.1, db.2, src.date12List, ds.date12List_keep, ds.date12List_drop,
             ds.dateList_keep, ds.dateList_drop, coh⟩

/-- Modelled from the spec: the reconciliation formula of §4.1 case 2,
`coherence[p] = cohValues[cohKeys.index(p)]` for each `p` in `pairs`, in
`pairs` order — stated with the same first-index function `list.index` the
source uses, for comparison with `resolveCoherence`. -/
def specCoherenceReindex (date12List cohDate12List : List String) (cohList : List CohVal) :
    List CohVal :=
  date12List.map (fun p =>
    match pyIndexAux p cohDate12List with
    | some i => cohList.getD i CohVal.nan
    | none => CohVal.nan)

/-! ### Concrete inputs used by the witnesses and counterexamples -/

/-- A small acquisition date list for a structured stack source. -/
def datesEx : List String := ["20070101", "20070201", "20070301"]

/-- The full pair list over `datesEx`. -/
def pairsEx : List String :=
  ["20070101_20070201", "20070101_20070301", "20070201_20070301"]

/-- A kept-pair list: only the first pair of `pairsEx` is kept. -/
def keepEx : List String := ["20070101_20070201"]

/-- The drop state `resolveDropState` computes from `datesEx`, `pairsEx`,
`keepEx`. -/
def dropStateEx : DropState :=
  ⟨some keepEx, ["20070101_20070301", "20070201_20070301"],
   some ["20070101", "20070201"], ["20070301"]⟩

/-- A structured input whose declared kind is neither recognized kind. -/
def badKindInput : NetworkInput :=
  ⟨true, "geometry", [], [], [], [], [], [], [], [], [], []⟩

/-- A flat-text source (the baseline-list and date12-list examples of the
source's own docstrings). -/
def flatInput : NetworkInput :=
  ⟨false, "", [], [], [], [],
   ["20070106", "20070709", "20070824"], [0, 26319/10, 27873/10],
   ["20070709_20100901", "20070709_20101017", "20070824_20071009"],
   [], [], []⟩

/-- The model `read_network_info` produces from `flatInput`. -/
def flatOutput : NetworkModel :=
  ⟨["20070106", "20070709", "20070824"], [0, 26319/10, 27873/10],
   ["20070709_20100901", "20070709_20101017", "20070824_20071009"],
   none, [], none, [], none⟩

/-! ### Basic lemmas about the Python-primitive embeddings -/

theorem except_bind_ok {α β : Type} (a : α) (f : α → Except String β) :
    (Except.ok a >>= f) = f a := rfl

theorem except_bind_error {α β : Type} (e : String) (f : α → Except String β) :
    ((Except.error e : Except String α) >>= f) = Except.error e := rfl

theorem setStrictSuperset_iff {a b : List String} :
    setStrictSuperset a b = true ↔ (∀ x ∈ b, x ∈ a) ∧ ∃ x ∈ a, x ∉ b := by
  simp [setStrictSuperset]

theorem setStrictSuperset_asymm {a b : List String} (h : setStrictSuperset a b = true) :
    setStrictSuperset b a = false := by
  rcases setStrictSuperset_iff.1 h with ⟨-, x, hxa, hxb⟩
  rw [← Bool.not_eq_true]
  intro hba
  exact hxb ((setStrictSuperset_iff.1 hba).1 x hxa)

theorem pyIndexAux_lt_length {x : String} {l : List String} {i : Nat}
    (h : pyIndexAux x l = some i) : i < l.length := by
  induction l generalizing i with
  | nil =>
    have hn : pyIndexAux x [] = none := rfl
    rw [hn] at h
    exact Option.noConfusion h
  | cons y ys ih =>
    simp only [pyIndexAux] at h
    split at h
    · cases h
      simp
    · cases hm : pyIndexAux x ys with
      | none => rw [hm] at h; exact Option.noConfusion h
      | some j =>
        rw [hm] at h
        simp at h
        have := ih hm
        simp only [List.length_cons]
        omega

theorem pyIndexAux_of_mem {x : String} {l : List String} (h : x ∈ l) :
    ∃ i, pyIndexAux x l = some i := by
  induction l with
  | nil => simp at h
  | cons y ys ih =>
    by_cases hy : y = x
    · exact ⟨0, by simp [pyIndexAux, hy]⟩
    · have hx : x ∈ ys := by
        rcases List.mem_cons.1 h with h1 | h1
        · exact absurd h1.symm hy
        · exact h1
      rcases ih hx with ⟨i, hi⟩
      exact ⟨i + 1, by simp [pyIndexAux, hy, hi]⟩

theorem exceptMap_eq_map {α β : Type} {f : α → Except String β} {g : α → β} :
    ∀ {l : List α}, (∀ x ∈ l, f x = Except.ok (g x)) →
      exceptMap f l = Except.ok (l.map g)
  | [], _ => rfl
  | x :: xs, h => by
    have hx := h x (List.mem_cons_self x xs)
    have hxs := exceptMap_eq_map (fun y hy => h y (List.mem_cons_of_mem x hy))
    simp only [exceptMap, hx, hxs, except_bind_ok, List.map_cons]

theorem exceptMap_ok_eq_map {α β : Type} {f : α → Except String β} {g : α → β}
    (hg : ∀ x y, f x = Except.ok y → y = g x) {l : List α} {ys : List β}
    (h : exceptMap f l = Except.ok ys) : ys = l.map g := by
  induction l generalizing ys with
  | nil =>
    simp only [exceptMap, Except.ok.injEq] at h
    simp [← h]
  | cons x xs ih =>
    cases hfx : f x with
    | error e =>
      rw [exceptMap, hfx, except_bind_error] at h
      exact Except.noConfusion h
    | ok y =>
      cases hrec : exceptMap f xs with
      | error e =>
        rw [exceptMap, hfx, except_bind_ok, hrec, except_bind_error] at h
        exact Except.noConfusion h
      | ok zs =>
        rw [exceptMap, hfx, except_bind_ok, hrec, except_bind_ok] at h
        have hz := ih hrec
        have hy := hg x y hfx
        simp only [Except.ok.injEq] at h
        rw [← h, List.map_cons, ← hy, ← hz]

theorem sdateE_ok_eq {s t : String} (h : sdateE s = Except.ok t) : t = sdateD s := by
  unfold sdateE at h
  unfold sdateD
  cases hs : (pySplit s '_')[1]? with
  | none => rw [hs] at h; exact Except.noConfusion h
  | some u =>
    rw [hs] at h
    simp only [Except.ok.injEq] at h
    simp [← h]

theorem mem_pySortedSet {x : String} {l : List String} : x ∈ pySortedSet l ↔ x ∈ l := by
  unfold pySortedSet
  rw [List.mem_insertionSort]
  exact List.mem_dedup

theorem mem_pySortedSetDiff {x : String} {a b : List String} :
    x ∈ pySortedSetDiff a b ↔ x ∈ a ∧ x ∉ b := by
  unfold pySortedSetDiff
  rw [mem_pySortedSet, List.mem_filter]
  simp

theorem resolveDropState_stack_ok {dateList date12List keep : List String} {ds : DropState}
    (h : resolveDropState true dateList date12List keep = Except.ok ds) :
    ds = ⟨some keep, pySortedSetDiff date12List keep,
          some (pySortedSet (keep.map mdate ++ keep.map sdateD)),
          pySortedSetDiff dateList (pySortedSet (keep.map mdate ++ keep.map sdateD))⟩ := by
  simp only [resolveDropState, if_true] at h
  cases hm : exceptMap sdateE keep with
  | error e =>
    rw [hm, except_bind_error] at h
    exact Except.noConfusion h
  | ok sDates =>
    rw [hm, except_bind_ok] at h
    have hs : sDates = keep.map sdateD :=
      exceptMap_ok_eq_map (fun s t ht => sdateE_ok_eq ht) hm
    simp only [Except.ok.injEq] at h
    rw [← h, hs]

/-- On the strict-superset branch with a not-all-NaN coherence list whose
length matches its key list (the `ut.spatial_average` contract), the source's
re-indexing comprehension computes exactly the reconciliation formula of the
spec. -/
theorem resolveCoherence_superset_eq {date12List cohDate12List : List String}
    {cohList : List CohVal}
    (hnan : cohList.all CohVal.isNaN = false)
    (hsup : setStrictSuperset cohDate12List date12List = true)
    (hlen : cohList.length = cohDate12List.length) :
    resolveCoherence date12List cohDate12List cohList =
      Except.ok (some (specCoherenceReindex date12List cohDate12List cohList)) := by
  have hpt : ∀ p ∈ date12List,
      (do
        let idx ← pyIndex cohDate12List p
        pyGet cohList idx) =
        Except.ok (match pyIndexAux p cohDate12List with
          | some i => cohList.getD i CohVal.nan
          | none => CohVal.nan) := by
    intro p hp
    rcases pyIndexAux_of_mem ((setStrictSuperset_iff.1 hsup).1 p hp) with ⟨i, hi⟩
    have hilt : i < cohList.length := by
      rw [hlen]
      exact pyIndexAux_lt_length hi
    rw [hi]
    simp only [pyIndex, hi, except_bind_ok, pyGet, List.getElem?_eq_getElem hilt,
      List.getD_eq_getElem?_getD, Option.getD_some]
  unfold resolveCoherence
  rw [hnan, hsup]
  simp only [Bool.false_eq_true, if_false, if_true]
  rw [exceptMap_eq_map hpt, except_bind_ok]
  rfl

/-! ### Claims about coherence reconciliation (C1 - C5) -/

/-- Claim C1: the spec says that when every value in `cohValues` is NaN the
resolved coherence is absent and the load does not fail, in particular also
when `set(cohKeys)` is a strict superset of `set(pairs)`.  The code instead
sets the coherence list to `None` and then still enters the strict-superset
re-indexing branch, where subscripting `None` raises a `TypeError`: this
theorem evaluates the source's reconciliation at such an input and shows it
raises instead of returning an absent coherence. -/
theorem c1_allnan_superset_raises :
    resolveCoherence ["20070709_20100901"]
        ["20070709_20100901", "20070709_20101017"] [CohVal.nan, CohVal.nan] =
      Except.error noneTypeMsg := rfl

/-- Claim C2, counterexample: with `pairs = [A, B]`, `cohKeys = [B, A]` (a
non-trivial permutation, not all NaN), the code takes neither the superset
nor the subset branch and returns the values unchanged in `cohKeys` order,
so the value at the position of `A` is `0.2`, not
`cohValues[cohKeys.index(A)] = 0.1` as the claim requires. -/
theorem c2_counterexample :
    resolveCoherence ["20070709_20100901", "20070824_20071009"]
        ["20070824_20071009", "20070709_20100901"]
        [CohVal.val (2/10), CohVal.val (1/10)] =
      Except.ok (some [CohVal.val (2/10), CohVal.val (1/10)]) ∧
    specCoherenceReindex ["20070709_20100901", "20070824_20071009"]
        ["20070824_20071009", "20070709_20100901"]
        [CohVal.val (2/10), CohVal.val (1/10)] =
      [CohVal.val (1/10), CohVal.val (2/10)] ∧
    (CohVal.val (2/10) : CohVal) ≠ CohVal.val (1/10) := by
  refine ⟨rfl, rfl, ?_⟩
  simp only [ne_eq, CohVal.val.injEq]
  norm_num

/-- Claim C2, amended: when the key sets of `cohKeys` and `pairs` are equal
(and not all values are NaN), the code returns the coherence values
unchanged, in `cohKeys` order — no re-indexing is performed, so the result
coincides with the pairs-aligned re-indexing only when `cohKeys` already
lists the pairs in `pairs` order. -/
theorem c2_exact_match_unchanged (date12List cohDate12List : List String)
    (cohList : List CohVal)
    (hnan : cohList.all CohVal.isNaN = false)
    (hsub1 : ∀ x ∈ cohDate12List, x ∈ date12List)
    (hsub2 : ∀ x ∈ date12List, x ∈ cohDate12List) :
    resolveCoherence date12List cohDate12List cohList = Except.ok (some cohList) := by
  have h1 : setStrictSuperset cohDate12List date12List = false := by
    rw [← Bool.not_eq_true]
    intro hs
    rcases setStrictSuperset_iff.1 hs with ⟨-, x, hx, hnx⟩
    exact hnx (hsub1 x hx)
  have h2 : setStrictSuperset date12List cohDate12List = false := by
    rw [← Bool.not_eq_true]
    intro hs
    rcases setStrictSuperset_iff.1 hs with ⟨-, x, hx, hnx⟩
    exact hnx (hsub2 x hx)
  unfold resolveCoherence
  rw [hnan, h1, h2]
  simp

/-- Claim C2, witness: a concrete permutation input on which the equal-sets
case returns the values unchanged. -/
theorem c2_witness :
    resolveCoherence ["20070709_20100901", "20070824_20071009"]
        ["20070824_20071009", "20070709_20100901"]
        [CohVal.val (3/10), CohVal.val (4/10)] =
      Except.ok (some [CohVal.val (3/10), CohVal.val (4/10)]) :=
  c2_exact_match_unchanged _ _ _ rfl (by decide) (by decide)

/-- Claim C3, counterexample: with `pairs` of length 3 and `cohKeys` of
length 2 such that the two key sets are incomparable (each has a key the
other lacks, values not all NaN), the code takes neither branch and returns
the 2-element value list as present coherence — a partial mapping that does
not assign a value to every key in `pairs`. -/
theorem c3_counterexample :
    resolveCoherence ["20070709_20100901", "20070824_20071009", "20070709_20101017"]
        ["20070709_20100901", "20991230_20991231"]
        [CohVal.val (5/10), CohVal.val (6/10)] =
      Except.ok (some [CohVal.val (5/10), CohVal.val (6/10)]) ∧
    ([CohVal.val (5/10), CohVal.val (6/10)] : List CohVal).length = 2 ∧
    ¬((2 : Nat) =
      (["20070709_20100901", "20070824_20071009", "20070709_20101017"] :
        List String).length) :=
  ⟨rfl, rfl, by decide⟩

/-- Claim C3, amended: the full-coverage invariant holds on the
strict-superset branch — there the returned coherence has exactly one value
per key of `pairs`, index-aligned (and the strict-subset branch returns
absent, claim C5); but for incomparable or merely set-equal key lists the
code returns the value list unchanged, which need not cover `pairs`. -/
theorem c3_superset_full_coverage (date12List cohDate12List : List String)
    (cohList : List CohVal)
    (hnan : cohList.all CohVal.isNaN = false)
    (hsup : setStrictSuperset cohDate12List date12List = true)
    (hlen : cohList.length = cohDate12List.length) :
    (resolveCoherence date12List cohDate12List cohList).map (Option.map List.length) =
      Except.ok (some date12List.length) := by
  rw [resolveCoherence_superset_eq hnan hsup hlen]
  simp [specCoherenceReindex, Except.map]

/-- Claim C3, witness: concrete strict-superset input with full coverage. -/
theorem c3_witness :
    (resolveCoherence ["20070709_20100901"]
        ["20070709_20100901", "20070709_20101017"]
        [CohVal.val (7/10), CohVal.val (8/10)]).map (Option.map List.length) =
      Except.ok (some 1) :=
  c3_superset_full_coverage _ _ _ rfl (by decide) rfl

/-- Claim C4: superset case — when not all values are NaN, `set(cohKeys)` is
a strict superset of `set(pairs)`, and the value list is index-aligned with
its key list (the `ut.spatial_average` contract), the source re-indexes:
the result is present and equals `coherence[p] = cohValues[cohKeys.index(p)]`
for each `p` in `pairs`, in `pairs` order. -/
theorem c4_superset_reindex (date12List cohDate12List : List String)
    (cohList : List CohVal)
    (hnan : cohList.all CohVal.isNaN = false)
    (hsup : setStrictSuperset cohDate12List date12List = true)
    (hlen : cohList.length = cohDate12List.length) :
    resolveCoherence date12List cohDate12List cohList =
      Except.ok (some (specCoherenceReindex date12List cohDate12List cohList)) :=
  resolveCoherence_superset_eq hnan hsup hlen

/-- Claim C4, witness: the spec's own example — `pairs = [p1, p2, p3]`,
`cohKeys = [p1, p2, p3, p4]`, `cohValues = [0.1, 0.2, 0.3, 0.4]` yields
`[0.1, 0.2, 0.3]` with `p4` dropped. -/
theorem c4_witness :
    resolveCoherence ["20070709_20100901", "20070709_20101017", "20070824_20071009"]
        ["20070709_20100901", "20070709_20101017", "20070824_20071009", "20070824_20080101"]
        [CohVal.val (1/10), CohVal.val (2/10), CohVal.val (3/10), CohVal.val (4/10)] =
      Except.ok (some (specCoherenceReindex
        ["20070709_20100901", "20070709_20101017", "20070824_20071009"]
        ["20070709_20100901", "20070709_20101017", "20070824_20071009", "20070824_20080101"]
        [CohVal.val (1/10), CohVal.val (2/10), CohVal.val (3/10), CohVal.val (4/10)])) ∧
    specCoherenceReindex
        ["20070709_20100901", "20070709_20101017", "20070824_20071009"]
        ["20070709_20100901", "20070709_20101017", "20070824_20071009", "20070824_20080101"]
        [CohVal.val (1/10), CohVal.val (2/10), CohVal.val (3/10), CohVal.val (4/10)] =
      [CohVal.val (1/10), CohVal.val (2/10), CohVal.val (3/10)] :=
  ⟨c4_superset_reindex _ _ _ rfl (by decide) rfl, rfl⟩

/-- Claim C5: subset case — when not all values are NaN and `set(cohKeys)`
is a strict subset of `set(pairs)` (coverage incomplete), the resolved
coherence is absent; a sparse partial mapping is never returned. -/
theorem c5_subset_absent (date12List cohDate12List : List String)
    (cohList : List CohVal)
    (hnan : cohList.all CohVal.isNaN = false)
    (hsub : setStrictSuperset date12List cohDate12List = true) :
    resolveCoherence date12List cohDate12List cohList = Except.ok none := by
  have h1 : setStrictSuperset cohDate12List date12List = false :=
    setStrictSuperset_asymm hsub
  unfold resolveCoherence
  rw [hnan, h1, hsub]
  simp

/-- Claim C5, witness: the spec's subset example `pairs = [p1, p2, p3]`,
`cohKeys = [p1, p2]` resolves to absent coherence. -/
theorem c5_witness :
    resolveCoherence ["20070709_20100901", "20070709_20101017", "20070824_20071009"]
        ["20070709_20100901", "20070709_20101017"]
        [CohVal.val (1/10), CohVal.val (2/10)] = Except.ok none :=
  c5_subset_absent _ _ _ rfl (by decide)

/-! ### Claims about the drop state and source shapes (C6 - C10) -/

/-- Claim C6: for a structured stack source, assuming the accessor contract
`set(keptPairs) ⊆ set(pairs)`, the drop stage keeps the accessor's pair list
and computes `droppedPairs = sorted(set(pairs) - set(keptPairs))`, and the
two lists partition `pairs` as sets: their union is `set(pairs)` and they
are disjoint. -/
theorem c6_partition (dateList date12List keep : List String) (ds : DropState)
    (hok : resolveDropState true dateList date12List keep = Except.ok ds)
    (hsub : ∀ x ∈ keep, x ∈ date12List) :
    ds.date12List_keep = some keep ∧
    ds.date12List_drop = pySortedSetDiff date12List keep ∧
    ∀ x, ((x ∈ keep ∨ x ∈ ds.date12List_drop) ↔ x ∈ date12List) ∧
      ¬(x ∈ keep ∧ x ∈ ds.date12List_drop) := by
  have hds := resolveDropState_stack_ok hok
  have hkeep : ds.date12List_keep = some keep := by rw [hds]
  have hdrop : ds.date12List_drop = pySortedSetDiff date12List keep := by rw [hds]
  refine ⟨hkeep, hdrop, fun x => ⟨⟨?_, ?_⟩, ?_⟩⟩
  · rintro (hx | hx)
    · exact hsub x hx
    · rw [hdrop] at hx
      exact (mem_pySortedSetDiff.1 hx).1
  · intro hx
    by_cases hk : x ∈ keep
    · exact Or.inl hk
    · exact Or.inr (by rw [hdrop]; exact mem_pySortedSetDiff.2 ⟨hx, hk⟩)
  · rintro ⟨hk, hd⟩
    rw [hdrop] at hd
    exact (mem_pySortedSetDiff.1 hd).2 hk

/-- Claim C6, witness: the partition facts at a concrete stack input, read
off from the claim theorem instantiated at the dropped pair
`20070101_20070301`. -/
theorem c6_witness :
    dropStateEx.date12List_keep = some keepEx ∧
    dropStateEx.date12List_drop = pySortedSetDiff pairsEx keepEx ∧
    ((("20070101_20070301" ∈ keepEx ∨
        "20070101_20070301" ∈ dropStateEx.date12List_drop) ↔
      "20070101_20070301" ∈ pairsEx) ∧
      ¬("20070101_20070301" ∈ keepEx ∧
        "20070101_20070301" ∈ dropStateEx.date12List_drop)) := by
  have h := c6_partition datesEx pairsEx keepEx dropStateEx rfl (by decide)
  exact ⟨h.1, h.2.1, h.2.2 "20070101_20070301"⟩

/-- Claim C7: for a structured stack source, `keptDates` is the sorted set
union of the master and secondary components obtained by splitting every
kept pair key on the separator, `droppedDates = sorted(set(dates) -
set(keptDates))`, and equivalently a date is dropped iff it is in `dates`
and appears in no kept pair. -/
theorem c7_dropped_dates_roundtrip (dateList date12List keep : List String) (ds : DropState)
    (hok : resolveDropState true dateList date12List keep = Except.ok ds) :
    ds.dateList_keep = some (pySortedSet (keep.map mdate ++ keep.map sdateD)) ∧
    ds.dateList_drop =
      pySortedSetDiff dateList (pySortedSet (keep.map mdate ++ keep.map sdateD)) ∧
    ∀ d, d ∈ ds.dateList_drop ↔
      d ∈ dateList ∧ ∀ p ∈ keep, d ≠ mdate p ∧ d ≠ sdateD p := by
  have hds := resolveDropState_stack_ok hok
  have hkeep : ds.dateList_keep =
      some (pySortedSet (keep.map mdate ++ keep.map sdateD)) := by rw [hds]
  have hdrop : ds.dateList_drop =
      pySortedSetDiff dateList (pySortedSet (keep.map mdate ++ keep.map sdateD)) := by
    rw [hds]
  refine ⟨hkeep, hdrop, fun d => ?_⟩
  rw [hdrop, mem_pySortedSetDiff]
  constructor
  · rintro ⟨hd, hK⟩
    refine ⟨hd, fun p hp => ⟨?_, ?_⟩⟩
    · intro he
      exact hK (mem_pySortedSet.2
        (List.mem_append.2 (Or.inl (List.mem_map.2 ⟨p, hp, he.symm⟩))))
    · intro he
      exact hK (mem_pySortedSet.2
        (List.mem_append.2 (Or.inr (List.mem_map.2 ⟨p, hp, he.symm⟩))))
  · rintro ⟨hd, hall⟩
    refine ⟨hd, fun hK => ?_⟩
    rcases List.mem_append.1 (mem_pySortedSet.1 hK) with hm | hm
    · rcases List.mem_map.1 hm with ⟨p, hp, he⟩
      exact (hall p hp).1 he.symm
    · rcases List.mem_map.1 hm with ⟨p, hp, he⟩
      exact (hall p hp).2 he.symm

/-- Claim C7, witness: the round-trip facts at a concrete stack input,
instantiated at the dropped date `20070301`. -/
theorem c7_witness :
    dropStateEx.dateList_keep =
      some (pySortedSet (keepEx.map mdate ++ keepEx.map sdateD)) ∧
    dropStateEx.dateList_drop =
      pySortedSetDiff datesEx (pySortedSet (keepEx.map mdate ++ keepEx.map sdateD)) ∧
    ("20070301" ∈ dropStateEx.dateList_drop ↔
      "20070301" ∈ datesEx ∧
        ∀ p ∈ keepEx, "20070301" ≠ mdate p ∧ "20070301" ≠ sdateD p) := by
  have h := c7_dropped_dates_roundtrip datesEx pairsEx keepEx dropStateEx rfl
  exact ⟨h.1, h.2.1, h.2.2 "20070301"⟩

/-- Claim C8, counterexample: the claim also asserts `keptDates ⊆ dates`
with no precondition relating kept pair keys to the date list, but
`keptDates` is built purely from the split components of the kept keys:
with `dates = [20070101]` and the well-formed kept pair
`20070101_20070201`, the computed `keptDates` contains `20070201`, which is
not an element of `dates`. -/
theorem c8_counterexample :
    resolveDropState true ["20070101"] ["20070101_20070201"] ["20070101_20070201"] =
      Except.ok ⟨some ["20070101_20070201"], [],
        some ["20070101", "20070201"], []⟩ ∧
    "20070201" ∈ (["20070101", "20070201"] : List String) ∧
    "20070201" ∉ (["20070101"] : List String) :=
  ⟨rfl, by decide, by decide⟩

/-- Claim C8, amended: for every source shape, `droppedDates ⊆ dates` holds
unconditionally, and `droppedDates` is disjoint from the computed
`keptDates`; but `keptDates ⊆ dates` does not hold in general — it is the
set of split components of the kept pair keys, which the code never relates
to `dates`. -/
theorem c8_dropped_dates_in_dates (isStack : Bool) (dateList date12List keep : List String)
    (ds : DropState)
    (hok : resolveDropState isStack dateList date12List keep = Except.ok ds) :
    (∀ x ∈ ds.dateList_drop, x ∈ dateList) ∧
    ∀ keptD, ds.dateList_keep = some keptD → ∀ x ∈ ds.dateList_drop, x ∉ keptD := by
  cases isStack with
  | false =>
    have h0 : ds = ⟨none, [], none, []⟩ := by
      have h1 : resolveDropState false dateList date12List keep =
          Except.ok ⟨none, [], none, []⟩ := rfl
      rw [h1] at hok
      exact (Except.ok.inj hok).symm
    rw [h0]
    exact ⟨fun x hx => absurd hx (List.not_mem_nil x), fun keptD hk => by
      exact absurd hk (by simp)⟩
  | true =>
    have hds := resolveDropState_stack_ok hok
    have hkeep : ds.dateList_keep =
        some (pySortedSet (keep.map mdate ++ keep.map sdateD)) := by rw [hds]
    have hdrop : ds.dateList_drop =
        pySortedSetDiff dateList (pySortedSet (keep.map mdate ++ keep.map sdateD)) := by
      rw [hds]
    constructor
    · intro x hx
      rw [hdrop] at hx
      exact (mem_pySortedSetDiff.1 hx).1
    · intro keptD hk x hx
      rw [hkeep] at hk
      rw [hdrop] at hx
      rw [← Option.some.inj hk]
      exact (mem_pySortedSetDiff.1 hx).2

/-- Claim C8, witness: the containment and disjointness facts at a concrete
stack input, instantiated at the dropped date `20070301`. -/
theorem c8_witness :
    ("20070301" ∈ dropStateEx.dateList_drop → "20070301" ∈ datesEx) ∧
    (dropStateEx.dateList_keep = some ["20070101", "20070201"] →
      "20070301" ∈ dropStateEx.dateList_drop →
      "20070301" ∉ (["20070101", "20070201"] : List String)) := by
  have h := c8_dropped_dates_in_dates true datesEx pairsEx keepEx dropStateEx rfl
  exact ⟨h.1 "20070301", fun hk hx => h.2 ["20070101", "20070201"] hk "20070301" hx⟩

/-- Claim C9: step 1 fails with the unsupported-file-kind error exactly when
the source is structured and its declared kind is neither `ifgramStack` nor
`timeseries`; for the two recognized kinds and for flat-text sources it
returns the corresponding dates and baselines without raising. -/
theorem c9_unsupported_kind_iff (src : NetworkInput) :
    (loadDatesAndBaselines src = Except.error unsupportedKindMsg ↔
      src.isH5 = true ∧ src.fileType ≠ "ifgramStack" ∧ src.fileType ≠ "timeseries") ∧
    (src.isH5 = true → src.fileType = "ifgramStack" →
      loadDatesAndBaselines src = Except.ok (src.stackDateList, src.stackPbaseList)) ∧
    (src.isH5 = true → src.fileType = "timeseries" →
      loadDatesAndBaselines src = Except.ok (src.tsDateList, src.tsPbaseList)) ∧
    (src.isH5 = false →
      loadDatesAndBaselines src = Except.ok (src.blDateList, src.blPbaseList)) := by
  unfold loadDatesAndBaselines
  cases h5 : src.isH5 with
  | false => simp [h5]
  | true =>
    by_cases h1 : src.fileType = "ifgramStack"
    · simp [h5, h1]
    · by_cases h2 : src.fileType = "timeseries"
      · simp [h5, h1, h2]
      · simp [h5, h1, h2]

/-- Claim C9, witness: a structured source declared as `geometry` fails with
the unsupported-file-kind error. -/
theorem c9_witness :
    loadDatesAndBaselines badKindInput = Except.error unsupportedKindMsg :=
  (c9_unsupported_kind_iff badKindInput).1.mpr ⟨rfl, by decide, by decide⟩

/-- Claim C10, counterexample: for a flat-text source the claim asserts
`keptPairs == pairs`, but the code never assigns the kept-pair attribute on
that path — the resulting model carries no kept-pair list at all (and in
particular not one equal to `pairs`). -/
theorem c10_counterexample :
    read_network_info flatInput = Except.ok flatOutput ∧
    flatOutput.date12List_keep ≠ some flatOutput.date12List :=
  ⟨rfl, by decide⟩

/-- Claim C10, amended: for every flat-text (non-structured) source the
model has `droppedPairs == []`, `droppedDates == []` and coherence absent —
the drop-state and coherence stages are no-ops — while the kept-pair and
kept-date attributes are left unassigned (no pair is marked dropped) rather
than set to `pairs`. -/
theorem c10_flat_source_noop (src : NetworkInput) (h : src.isH5 = false) :
    read_network_info src =
      Except.ok ⟨src.blDateList, src.blPbaseList, src.date12List,
        none, [], none, [], none⟩ := by
  simp [read_network_info, loadDatesAndBaselines, NetworkInput.isStack,
    resolveDropState, h, except_bind_ok]

/-- Claim C10, witness: the flat example input produces the no-op model. -/
theorem c10_witness : read_network_info flatInput = Except.ok flatOutput :=
  c10_flat_source_noop flatInput rfl
